import Mathlib

set_option maxRecDepth 1000000

/-!
Verification of the key-exchange and replay-protection core of the
InformationSecurity chat application.

The development shallowly embeds the JavaScript sources:

* `frontend/src/utils/keyExchange.js` (namespace `KeyExchangeJs`): the
  handshake engine — `createKeyExchangeInit`, `validateKeyExchangeInit`,
  `createKeyExchangeResponse`, `completeKeyExchange`, `deriveSessionKeySHA256`,
  `storeSessionKey`, `retrieveSessionKey`.
* `backend/utils/replayProtection.js` (namespace `ReplayProtectionJs`): the
  replay guard — `validateNonce`, `validateTimestamp`,
  `validateSequenceNumber`, `validateReplayProtection` — and the
  replay-validation fragment of `keyExchange.controller.js`.

Modelling conventions:

* Bytes are `List Nat`; JS strings are Lean `String`; JS numbers holding
  timestamps and sequence numbers are `Int` (so `now - tolerance` can go
  negative exactly as in JS); a falsy string is `""`, a falsy number is `0`,
  and `undefined`/`null` arguments are `Option`.
* SHA-256 (`window.crypto.subtle.digest("SHA-256", ...)`) is implemented
  concretely and byte-exactly below, as is `btoa` over raw hash bytes
  (standard base64).  `TextEncoder().encode` is modelled on the ASCII
  strings the protocol uses as the list of code points.
* WebCrypto P-256 ECDH is external to the repository; it is modelled by a
  Diffie-Hellman group written multiplicatively as exponentiation modulo a
  prime: a private key is a scalar `x`, its public key is `g ^ x % p`, and
  `deriveBits` is `pub ^ x % p`.  Only the defining DH property
  (both sides compute the same shared secret) is used.
* RSASSA-PKCS1-v1_5 signatures are external to the repository and are
  modelled symbolically (EUF-CMA idealization): a signature records the key
  it was made with and the exact content that was signed, and
  `verifySignature` succeeds iff both match.  `JSON.stringify` of a message
  object with its fixed field order is an injective canonical serialization,
  so the signed string is modelled by the field record itself.
* The mutable module-level stores (`seenNonces`, IndexedDB `sessionKeys`,
  the guard's four `Map`s) are threaded explicitly as association lists,
  with JS `Map.set` / `Set.add` / `Map.delete` semantics.
* A JS statement that throws is modelled with `Except`; reading an
  undeclared identifier is `JsError.referenceError`.
-/

/-! ## Association-list operations mirroring JS `Map`/`Set` semantics -/

/-- `Map.prototype.get`: first binding of the key, if any. -/
def lookupA [DecidableEq κ] (k : κ) : List (κ × α) → Option α
  | [] => none
  | (k', v) :: rest => if k' = k then some v else lookupA k rest

/-- `Map.prototype.set`: replace the binding in place if the key is present,
otherwise append it. -/
def putA [DecidableEq κ] (k : κ) (v : α) : List (κ × α) → List (κ × α)
  | [] => [(k, v)]
  | (k', v') :: rest => if k' = k then (k, v) :: rest else (k', v') :: putA k v rest

/-- `Map.prototype.delete`: remove the binding of the key. -/
def removeA [DecidableEq κ] (k : κ) : List (κ × α) → List (κ × α)
  | [] => []
  | (k', v') :: rest => if k' = k then removeA k rest else (k', v') :: removeA k rest

/-! ## SHA-256 (`window.crypto.subtle.digest("SHA-256", bytes)`) -/

namespace Sha256

/-- `2 ^ 32`, the word modulus. -/
def M32 : Nat := 4294967296

/-- Addition modulo `2 ^ 32`. -/
def add32 (a b : Nat) : Nat := (a + b) % M32

/-- Rotate a 32-bit word right by `n` bits. -/
def rotr32 (n x : Nat) : Nat := (x >>> n) ||| ((x <<< (32 - n)) % M32)

/-- Bitwise complement of a 32-bit word. -/
def not32 (x : Nat) : Nat := 4294967295 ^^^ x

/-- Small sigma 0. -/
def ssig0 (x : Nat) : Nat := (rotr32 7 x) ^^^ (rotr32 18 x) ^^^ (x >>> 3)

/-- Small sigma 1. -/
def ssig1 (x : Nat) : Nat := (rotr32 17 x) ^^^ (rotr32 19 x) ^^^ (x >>> 10)

/-- Big sigma 0. -/
def bsig0 (x : Nat) : Nat := (rotr32 2 x) ^^^ (rotr32 13 x) ^^^ (rotr32 22 x)

/-- Big sigma 1. -/
def bsig1 (x : Nat) : Nat := (rotr32 6 x) ^^^ (rotr32 11 x) ^^^ (rotr32 25 x)

/-- Choice function. -/
def ch (e f g : Nat) : Nat := (e &&& f) ^^^ ((not32 e) &&& g)

/-- Majority function. -/
def maj (a b c : Nat) : Nat := (a &&& b) ^^^ (a &&& c) ^^^ (b &&& c)

/-- The 64 round constants. -/
def K : List Nat :=
  [1116352408, 1899447441, 3049323471, 3921009573, 961987163, 1508970993,
   2453635748, 2870763221, 3624381080, 310598401, 607225278, 1426881987,
   1925078388, 2162078206, 2614888103, 3248222580, 3835390401, 4022224774,
   264347078, 604807628, 770255983, 1249150122, 1555081692, 1996064986,
   2554220882, 2821834349, 2952996808, 3210313671, 3336571891, 3584528711,
   113926993, 338241895, 666307205, 773529912, 1294757372, 1396182291,
   1695183700, 1986661051, 2177026350, 2456956037, 2730485921, 2820302411,
   3259730800, 3345764771, 3516065817, 3600352804, 4094571909, 275423344,
   430227734, 506948616, 659060556, 883997877, 958139571, 1322822218,
   1537002063, 1747873779, 1955562222, 2024104815, 2227730452, 2361852424,
   2428436474, 2756734187, 3204031479, 3329325298]

/-- The initial hash state. -/
def H0 : List Nat :=
  [1779033703, 3144134277, 1013904242, 2773480762, 1359893119, 2600822924,
   528734635, 1541459225]

/-- `len` big-endian bytes of `n`. -/
def bytesBE : Nat → Nat → List Nat
  | 0, _ => []
  | len + 1, n => bytesBE len (n / 256) ++ [n % 256]

/-- SHA-256 padding: append `0x80`, zeros to 56 mod 64, then the 8-byte
big-endian bit length. -/
def pad (msg : List Nat) : List Nat :=
  msg ++ [0x80] ++ List.replicate ((119 - msg.length % 64) % 64) 0
      ++ bytesBE 8 (msg.length * 8)

/-- Big-endian 32-bit words of a block of bytes. -/
def toWordsBE (block : List Nat) : List Nat :=
  (List.range (block.length / 4)).map fun i =>
    block.getD (4 * i) 0 * 16777216 + block.getD (4 * i + 1) 0 * 65536 +
      block.getD (4 * i + 2) 0 * 256 + block.getD (4 * i + 3) 0

/-- Extend 16 message-schedule words to 64. -/
def schedule (ws : List Nat) : List Nat :=
  ((List.range 48).foldl
    (fun rw _ =>
      add32 (add32 (add32 (rw.getD 15 0) (ssig0 (rw.getD 14 0))) (rw.getD 6 0))
        (ssig1 (rw.getD 1 0)) :: rw)
    ws.reverse).reverse

/-- One compression of a 64-byte block into the running hash state. -/
def compress (hs block : List Nat) : List Nat :=
  let w := schedule (toWordsBE block)
  let final := (w.zip K).foldl
    (fun st wk =>
      match st with
      | [a, b, c, d, e, f, g, h] =>
        let t1 := add32 (add32 (add32 (add32 h (bsig1 e)) (ch e f g)) wk.1) wk.2
        let t2 := add32 (bsig0 a) (maj a b c)
        [add32 t1 t2, a, b, c, add32 d t1, e, f, g]
      | other => other)
    hs
  (hs.zip final).map fun p => add32 p.1 p.2

/-- SHA-256 digest of a byte list, as 32 bytes. -/
def sha256 (msg : List Nat) : List Nat :=
  let padded := pad msg
  let hsFinal := ((List.range (padded.length / 64)).map
    (fun i => (padded.drop (64 * i)).take 64)).foldl compress H0
  (hsFinal.map (bytesBE 4)).flatten

end Sha256

export Sha256 (sha256)

/-! ## btoa over raw bytes (standard base64) and TextEncoder -/

/-- The base64 alphabet. -/
def b64chars : List Char :=
  "ABCDEFGHIJKLMNOPQRSTUVWXYZabcdefghijklmnopqrstuvwxyz0123456789+/".toList

/-- `btoa(String.fromCharCode(...bytes))`: standard base64 of a byte list. -/
def base64Encode : List Nat → String
  | [] => ""
  | [b1] =>
    String.mk [b64chars.getD (b1 / 4) 'A', b64chars.getD (b1 % 4 * 16) 'A'] ++ "=="
  | [b1, b2] =>
    String.mk [b64chars.getD (b1 / 4) 'A', b64chars.getD (b1 % 4 * 16 + b2 / 16) 'A',
      b64chars.getD (b2 % 16 * 4) 'A'] ++ "="
  | b1 :: b2 :: b3 :: rest =>
    String.mk [b64chars.getD (b1 / 4) 'A', b64chars.getD (b1 % 4 * 16 + b2 / 16) 'A',
      b64chars.getD (b2 % 16 * 4 + b3 / 64) 'A', b64chars.getD (b3 % 64) 'A'] ++
      base64Encode rest

/-- `new TextEncoder().encode(s)` on the ASCII strings the protocol builds:
the list of code points. -/
def encodeStr (s : String) : List Nat := s.data.map Char.toNat

/-! ## Frontend handshake engine: `frontend/src/utils/keyExchange.js` -/

namespace KeyExchangeJs

/-- Bytes, as in the WebCrypto `ArrayBuffer`s the source passes around. -/
abbrev Bytes := List Nat

/-- `TIMESTAMP_TOLERANCE = 5 * 60 * 1000` (5 minutes, ms). -/
def TIMESTAMP_TOLERANCE : Int := 5 * 60 * 1000

/-- `SESSION_KEY_EXPIRY = 7 * 24 * 60 * 60 * 1000` (7 days, ms). -/
def SESSION_KEY_EXPIRY : Int := 7 * 24 * 60 * 60 * 1000

/-- Modulus of the Diffie-Hellman group modelling WebCrypto P-256 ECDH. -/
def dhModulus : Nat := 2147483647

/-- Generator of the Diffie-Hellman group modelling WebCrypto P-256 ECDH. -/
def dhGen : Nat := 7

/-- The public key of an ECDH private scalar (`generateECDHKeyPair` returns the
pair of a fresh scalar and this value). -/
def ecdhPublicOf (priv : Nat) : Nat := dhGen ^ priv % dhModulus

/-- `deriveSharedSecret(myPrivateKey, theirPublicKey)`:
`window.crypto.subtle.deriveBits` on the DH-group model. -/
def deriveSharedSecret (myPrivateKey theirPublicKey : Nat) : Nat :=
  theirPublicKey ^ myPrivateKey % dhModulus

/-- The 32 bytes `deriveBits(..., 256)` yields for a shared secret. -/
def sharedSecretBytes (s : Nat) : Bytes := Sha256.bytesBE 32 s

/-- `deriveSessionKeySHA256(sharedSecret, senderId, receiverId, timestamp)`:
SHA-256 of sharedSecret ++ senderId ++ receiverId ++ timestamp.toString(),
imported as the 256-bit AES-GCM session key. -/
def deriveSessionKeySHA256 (sharedSecret : Bytes) (senderId receiverId : String)
    (timestamp : Int) : Bytes :=
  sha256 (sharedSecret ++ encodeStr senderId ++ encodeStr receiverId ++
    encodeStr (toString timestamp))

/-- Lexicographic strict comparison of char lists by code point, as the JS
default sort comparator orders strings. -/
def charListLtB : List Char → List Char → Bool
  | _, [] => false
  | [], _ :: _ => true
  | x :: xs, y :: ys =>
    if x.toNat < y.toNat then true
    else if y.toNat < x.toNat then false
    else charListLtB xs ys

/-- `a < b` in JS string comparison. -/
def strLtB (a b : String) : Bool := charListLtB a.data b.data

/-- `[a, b].sort()`: JS default sort on two strings (lexicographic), smaller
first. -/
def sortPair (a b : String) : String × String := if strLtB b a then (b, a) else (a, b)

/-- A symbolic RSASSA-PKCS1-v1_5 signature over a payload of type `α`: records
the signing key (a keypair is identified by a `Nat`; `signData` uses the
private half, `verifySignature` the public half of the same identifier) and
the exact signed content (the canonical `JSON.stringify` serialization of a
message object is injective, so it is modelled by the field record itself). -/
structure RSASig (α : Type) where
  keyId : Nat
  payload : α
deriving DecidableEq

/-- `verifySignature(publicKey, signature, data)`: succeeds iff the signature
was produced with the matching private key over exactly this content. -/
def verifySignature [DecidableEq α] (publicKey : Nat) (sig : RSASig α) (payload : α) :
    Bool :=
  decide (sig.keyId = publicKey ∧ sig.payload = payload)

/-- The signed fields of a `KEY_EXCHANGE_INIT` message, in source field order.
`ecdhPublicKey` carries the DH public value (base64 export/import of the key
is an inverse pair and is elided). -/
structure InitFields where
  type : String
  senderId : String
  receiverId : String
  conversationId : String
  ecdhPublicKey : Nat
  timestamp : Int
  nonce : String
  deviceInfo : String
  appVersion : String
deriving DecidableEq

/-- A `KEY_EXCHANGE_INIT` message: its fields plus the appended `signature`
field (`Option`, since `validateKeyExchangeInit` checks for its absence). -/
structure InitMessage where
  fields : InitFields
  signature : Option (RSASig InitFields)
deriving DecidableEq

/-- `createKeyExchangeInit(ecdhPublicKey, receiverId, myPrivateKey, senderId,
conversationId)` with the ambient nonce, wall clock and device info made
explicit. -/
def createKeyExchangeInit (ecdhPublicKey : Nat) (receiverId : String)
    (myPrivateKey : Nat) (senderId conversationId : String)
    (nonce : String) (now : Int) (deviceInfo : String) : InitMessage :=
  let messageData : InitFields :=
    { type := "KEY_EXCHANGE_INIT", senderId, receiverId, conversationId,
      ecdhPublicKey, timestamp := now, nonce, deviceInfo, appVersion := "1.0.0" }
  { fields := messageData, signature := some ⟨myPrivateKey, messageData⟩ }

/-- Result object of `validateKeyExchangeInit`. -/
inductive InitValidation where
  | invalid (error : String)
  | valid (ecdhPublicKey : Nat) (senderId conversationId : String) (timestamp : Int)
deriving DecidableEq

/-- `validateKeyExchangeInit(message, senderPublicKey)`: signature, timestamp
tolerance and nonce checks in source order, threading the module-level
`seenNonces` set. -/
def validateKeyExchangeInit (message : InitMessage) (senderPublicKey : Nat)
    (now : Int) (seenNonces : List String) : InitValidation × List String :=
  match message.signature with
  | none => (.invalid "Missing signature", seenNonces)
  | some sig =>
    if ¬ verifySignature senderPublicKey sig message.fields then
      (.invalid "Invalid signature", seenNonces)
    else if ((now - message.fields.timestamp).natAbs : Int) > TIMESTAMP_TOLERANCE then
      (.invalid "Message timestamp out of tolerance", seenNonces)
    else if message.fields.nonce ∈ seenNonces then
      (.invalid "Nonce already seen (replay attack)", seenNonces)
    else
      (.valid message.fields.ecdhPublicKey message.fields.senderId
        message.fields.conversationId message.fields.timestamp,
       message.fields.nonce :: seenNonces)

/-- The signed fields of a `KEY_EXCHANGE_RESPONSE` message, in source field
order. -/
structure ResponseFields where
  type : String
  senderId : String
  receiverId : String
  conversationId : String
  ecdhPublicKey : Nat
  timestamp : Int
  nonce : String
  confirmationHash : String
  deviceInfo : String
  appVersion : String
deriving DecidableEq

/-- A `KEY_EXCHANGE_RESPONSE` message with its appended signature. -/
structure ResponseMessage where
  fields : ResponseFields
  signature : Option (RSASig ResponseFields)
deriving DecidableEq

/-- The confirmation string
`` `KEY_CONFIRMED_${receiverId}_${senderId}_${timestamp}` `` built by
`createKeyExchangeResponse` (and, with `theirId`/`myId` substituted, by
`completeKeyExchange`). -/
def confirmationData (receiverId senderId : String) (timestamp : Int) : String :=
  "KEY_CONFIRMED_" ++ receiverId ++ "_" ++ senderId ++ "_" ++ toString timestamp

/-- Base64 of the SHA-256 digest of the confirmation string. -/
def confirmationHashBase64 (receiverId senderId : String) (timestamp : Int) : String :=
  base64Encode (sha256 (encodeStr (confirmationData receiverId senderId timestamp)))

/-- A stored `sessionKeys` record in IndexedDB (`key`, `timestamp`,
`expiresAt`). -/
structure SessionKeyData where
  key : Bytes
  timestamp : Int
  expiresAt : Int
deriving DecidableEq

/-- The IndexedDB `sessionKeys` object store, keyed by
`` `sessionKey-${conversationId}` ``. -/
abbrev SessionStore := List (String × SessionKeyData)

/-- `storeSessionKey(conversationId, sessionKey, timestamp)`: put the exported
key with `timestamp || Date.now()` and that value plus `SESSION_KEY_EXPIRY`
as `expiresAt`. -/
def storeSessionKey (conversationId : String) (sessionKey : Bytes)
    (timestamp : Int) (now : Int) (store : SessionStore) : SessionStore :=
  let created := if timestamp ≠ 0 then timestamp else now
  putA ("sessionKey-" ++ conversationId)
    { key := sessionKey, timestamp := created,
      expiresAt := created + SESSION_KEY_EXPIRY } store

/-- `retrieveSessionKey(conversationId)`: `null` when absent; when the entry
has a truthy `expiresAt` in the past, delete it and resolve `null`; otherwise
resolve the key. -/
def retrieveSessionKey (conversationId : String) (now : Int) (store : SessionStore) :
    Option Bytes × SessionStore :=
  match lookupA ("sessionKey-" ++ conversationId) store with
  | none => (none, store)
  | some result =>
    if result.expiresAt ≠ 0 ∧ now > result.expiresAt then
      (none, removeA ("sessionKey-" ++ conversationId) store)
    else
      (some result.key, store)

/-- The `{response, sessionKey, timestamp}` object returned by
`createKeyExchangeResponse`. -/
structure KeyExchangeResponseResult where
  response : ResponseMessage
  sessionKey : Bytes
  timestamp : Int
deriving DecidableEq

/-- `createKeyExchangeResponse(myECDHPublicKey, theirECDHPublicKey,
myECDHPrivateKey, senderId, myPrivateKey, receiverId, conversationId)` with
the ambient wall clock, nonce and device info made explicit; threads the
IndexedDB session store written by its `storeSessionKey` call. -/
def createKeyExchangeResponse (myECDHPublicKey theirECDHPublicKey myECDHPrivateKey : Nat)
    (senderId : String) (myPrivateKey : Nat) (receiverId conversationId : String)
    (now : Int) (nonce deviceInfo : String) (store : SessionStore) :
    KeyExchangeResponseResult × SessionStore :=
  let sharedSecret := deriveSharedSecret myECDHPrivateKey theirECDHPublicKey
  let timestamp := now
  let ids := sortPair senderId receiverId
  let sessionKey := deriveSessionKeySHA256 (sharedSecretBytes sharedSecret) ids.1 ids.2 timestamp
  let confirmationHash := confirmationHashBase64 receiverId senderId timestamp
  let responseData : ResponseFields :=
    { type := "KEY_EXCHANGE_RESPONSE", senderId := receiverId, receiverId := senderId,
      conversationId, ecdhPublicKey := myECDHPublicKey, timestamp, nonce,
      confirmationHash, deviceInfo, appVersion := "1.0.0" }
  let response : ResponseMessage := { fields := responseData, signature := some ⟨myPrivateKey, responseData⟩ }
  let convId := if conversationId ≠ "" then conversationId else senderId ++ "_" ++ receiverId
  ({ response, sessionKey, timestamp }, storeSessionKey convId sessionKey timestamp now store)

/-- The catch block of `completeKeyExchange` rethrows with this prefix. -/
def completeErr (msg : String) : String := "Failed to complete key exchange: " ++ msg

/-- `completeKeyExchange(responseMessage, myECDHPrivateKey, theirPublicKey,
myId, theirId, conversationId)`: signature, timestamp, nonce, key derivation
and confirmation check in source order; threads the module `seenNonces` set
and the session store.  A throw is `Except.error` with the rethrown message,
leaving whatever state was already mutated. -/
def completeKeyExchange (responseMessage : ResponseMessage) (myECDHPrivateKey : Nat)
    (theirPublicKey : Nat) (myId theirId conversationId : String)
    (now : Int) (seenNonces : List String) (store : SessionStore) :
    Except String Bytes × List String × SessionStore :=
  match responseMessage.signature with
  | none => (.error (completeErr "Missing signature in response"), seenNonces, store)
  | some sig =>
    if ¬ verifySignature theirPublicKey sig responseMessage.fields then
      (.error (completeErr "Invalid signature in response"), seenNonces, store)
    else if ((now - responseMessage.fields.timestamp).natAbs : Int) > TIMESTAMP_TOLERANCE then
      (.error (completeErr "Response timestamp out of tolerance"), seenNonces, store)
    else if responseMessage.fields.nonce ∈ seenNonces then
      (.error (completeErr "Nonce already seen (replay attack)"), seenNonces, store)
    else
      let seenNonces' := responseMessage.fields.nonce :: seenNonces
      let theirECDHPublicKey := responseMessage.fields.ecdhPublicKey
      let sharedSecret := deriveSharedSecret myECDHPrivateKey theirECDHPublicKey
      let timestamp := responseMessage.fields.timestamp
      let ids := sortPair theirId myId
      let sessionKey := deriveSessionKeySHA256 (sharedSecretBytes sharedSecret) ids.1 ids.2 timestamp
      let expectedHash := confirmationHashBase64 theirId myId timestamp
      if responseMessage.fields.confirmationHash ≠ expectedHash then
        (.error (completeErr "Confirmation hash mismatch"), seenNonces', store)
      else
        (.ok sessionKey, seenNonces',
         storeSessionKey conversationId sessionKey timestamp now store)

end KeyExchangeJs

/-! ## Backend replay guard: `backend/utils/replayProtection.js` and the
replay-validation fragment of `backend/controllers/keyExchange.controller.js` -/

namespace ReplayProtectionJs

/-- `TIMESTAMP_TOLERANCE = 5 * 60 * 1000` (5 minutes, ms). -/
def TIMESTAMP_TOLERANCE : Int := 5 * 60 * 1000

/-- `MAX_TIMESTAMPS_PER_CONVERSATION = 1000`. -/
def MAX_TIMESTAMPS_PER_CONVERSATION : Nat := 1000

/-- `SEQUENCE_WINDOW = 100`. -/
def SEQUENCE_WINDOW : Int := 100

/-- The module-level mutable maps: `seenNonces`, `seenTimestamps`,
`sequenceNumbers` and `messageHistory`, all keyed by context id. -/
structure ReplayState where
  seenNonces : List (String × List String)
  seenTimestamps : List (String × List Int)
  sequenceNumbers : List (String × Int)
  messageHistory : List (String × List (Int × String))
deriving DecidableEq

/-- The completely empty guard state. -/
def ReplayState.empty : ReplayState := ⟨[], [], [], []⟩

/-- A JS runtime error; `referenceError` is reading an undeclared
identifier. -/
inductive JsError where
  | referenceError
deriving DecidableEq

/-- `validateNonce(conversationId, nonce)`: falsy arguments fail; the set for
the conversation is created on demand; a seen nonce fails; a fresh one is
recorded. -/
def validateNonce (conversationId nonce : String) (st : ReplayState) :
    Bool × ReplayState :=
  if conversationId = "" ∨ nonce = "" then
    (false, st)
  else
    let nonceSet := (lookupA conversationId st.seenNonces).getD []
    if nonce ∈ nonceSet then
      (false, { st with seenNonces := putA conversationId nonceSet st.seenNonces })
    else
      (true, { st with seenNonces := putA conversationId (nonce :: nonceSet) st.seenNonces })

/-- `validateTimestamp(conversationId, timestamp)`: falsy arguments fail;
reject a timestamp beyond `now + TIMESTAMP_TOLERANCE` or before
`now - TIMESTAMP_TOLERANCE`; otherwise record it, shifting the oldest entry
out past `MAX_TIMESTAMPS_PER_CONVERSATION`. -/
def validateTimestamp (conversationId : String) (timestamp : Int) (now : Int)
    (st : ReplayState) : Bool × ReplayState :=
  if conversationId = "" ∨ timestamp = 0 then
    (false, st)
  else if timestamp > now + TIMESTAMP_TOLERANCE then
    (false, st)
  else if timestamp < now - TIMESTAMP_TOLERANCE then
    (false, st)
  else
    let arr := (lookupA conversationId st.seenTimestamps).getD [] ++ [timestamp]
    let arr := if arr.length > MAX_TIMESTAMPS_PER_CONVERSATION then arr.drop 1 else arr
    (true, { st with seenTimestamps := putA conversationId arr st.seenTimestamps })

/-- `validateSequenceNumber(sequenceContextId, sequenceNumber, messageId)`.
`undefined`/`null` arguments fail.  A duplicate sequence number fails.  The
branch for a sequence number below `lastSequence - SEQUENCE_WINDOW` calls
`logReplayAttack(conversationId, ...)`, but that function's parameter was
renamed `sequenceContextId` and no `conversationId` is in scope, so the
branch throws a `ReferenceError` instead of returning `false`.  Otherwise the
high-water mark and history are updated and entries below
`sequenceNumber - SEQUENCE_WINDOW` are evicted. -/
def validateSequenceNumber (sequenceContextId : String) (sequenceNumber : Option Int)
    (messageId : String) (st : ReplayState) :
    Except JsError Bool × ReplayState :=
  match sequenceNumber with
  | none => (.ok false, st)
  | some seq =>
    if sequenceContextId = "" then
      (.ok false, st)
    else
      let st :=
        if (lookupA sequenceContextId st.sequenceNumbers).isNone then
          { st with sequenceNumbers := putA sequenceContextId 0 st.sequenceNumbers,
                    messageHistory := putA sequenceContextId [] st.messageHistory }
        else st
      let lastSequence := (lookupA sequenceContextId st.sequenceNumbers).getD 0
      let history := (lookupA sequenceContextId st.messageHistory).getD []
      if (lookupA seq history).isSome then
        (.ok false, st)
      else if seq < lastSequence - SEQUENCE_WINDOW then
        (.error .referenceError, st)
      else
        let last := if seq > lastSequence then seq else lastSequence
        let history := (putA seq messageId history).filter fun p =>
          ¬ p.1 < seq - SEQUENCE_WINDOW
        (.ok true,
         { st with sequenceNumbers := putA sequenceContextId last st.sequenceNumbers,
                   messageHistory := putA sequenceContextId history st.messageHistory })

/-- The `{valid, reason?}` object returned by `validateReplayProtection`. -/
structure ValidationOutcome where
  valid : Bool
  reason : Option String
deriving DecidableEq

/-- `validateReplayProtection(conversationId, nonce, timestamp,
sequenceNumber, messageId, sequenceContextId)`: nonce, timestamp and sequence
checks in order, each skipped on a falsy/absent input, short-circuiting on
the first failure; a throw from the sequence check propagates. -/
def validateReplayProtection (conversationId nonce : String) (timestamp : Int)
    (sequenceNumber : Option Int) (messageId sequenceContextId : String)
    (now : Int) (st : ReplayState) :
    Except JsError ValidationOutcome × ReplayState :=
  let afterNonce :=
    if nonce ≠ "" then
      let r := validateNonce conversationId nonce st
      if ¬ r.1 then
        (some { valid := false, reason := some "Invalid or duplicate nonce" }, r.2)
      else (none, r.2)
    else (none, st)
  match afterNonce with
  | (some out, st) => (.ok out, st)
  | (none, st) =>
    let afterTs :=
      if timestamp ≠ 0 then
        let r := validateTimestamp conversationId timestamp now st
        if ¬ r.1 then
          (some { valid := false,
                  reason := some "Invalid timestamp (outside tolerance window or future timestamp)" }, r.2)
        else (none, r.2)
      else (none, st)
    match afterTs with
    | (some out, st) => (.ok out, st)
    | (none, st) =>
      match sequenceNumber with
      | none => (.ok { valid := true, reason := none }, st)
      | some seq =>
        let ctx := if sequenceContextId ≠ "" then sequenceContextId else conversationId
        match validateSequenceNumber ctx (some seq) messageId st with
        | (.error e, st) => (.error e, st)
        | (.ok ok, st) =>
          if ¬ ok then
            (.ok { valid := false,
                   reason := some "Invalid sequence number (duplicate or outside window)" }, st)
          else
            (.ok { valid := true, reason := none }, st)

/-- The request body fields `initiateKeyExchange` reads. -/
structure ControllerMessage where
  type : String
  senderId : String
  receiverId : String
  conversationId : String
  nonce : String
  timestamp : Int
deriving DecidableEq

/-- The HTTP outcome of `initiateKeyExchange`. -/
inductive ControllerResult where
  | badRequest (error : String)
  | forbidden (error : String)
  | serverError
  | okStored (conversationId : String)
deriving DecidableEq

/-- The `initiateKeyExchange` controller on `POST /initiate`: type and sender
checks, conversation-id defaulting, replay validation with
`message.timestamp || Date.now()` and no sequence number, then storage of
the init message into `keyExchangeStore`; the surrounding `try/catch` turns
a thrown error into a 500. -/
def initiateKeyExchange (message : ControllerMessage) (authUserId : String)
    (now : Int) (st : ReplayState)
    (keyExchangeStore : List (String × (ControllerMessage × Int))) :
    ControllerResult × ReplayState × List (String × (ControllerMessage × Int)) :=
  if message.type ≠ "KEY_EXCHANGE_INIT" then
    (.badRequest "Invalid message type", st, keyExchangeStore)
  else if message.senderId ≠ authUserId then
    (.forbidden "Sender ID mismatch", st, keyExchangeStore)
  else
    let conversationId :=
      if message.conversationId ≠ "" then message.conversationId
      else message.senderId ++ "_" ++ message.receiverId
    let ts := if message.timestamp ≠ 0 then message.timestamp else now
    match validateReplayProtection conversationId message.nonce ts none "" "" now st with
    | (.error _, st) => (.serverError, st, keyExchangeStore)
    | (.ok validation, st) =>
      if ¬ validation.valid then
        (.badRequest ("Replay attack detected in key exchange: " ++
          (validation.reason.getD "")), st, keyExchangeStore)
      else
        (.okStored conversationId, st,
         putA conversationId (message, now) keyExchangeStore)

end ReplayProtectionJs

/-! ## Frontend hook: `frontend/src/hooks/useKeyExchange.js` -/

namespace UseKeyExchangeJs

/-- The hook state touched by `handleKeyExchangeMessage`: the React
`sessionKeys` map, the `keyExchange.js` module's `seenNonces` set and the
IndexedDB session store. -/
structure HandlerState where
  sessionKeys : List (String × KeyExchangeJs.Bytes)
  seenNonces : List String
  sessionStore : KeyExchangeJs.SessionStore
deriving DecidableEq

/-- `handleKeyExchangeMessage(message, senderId, senderPublicKey,
conversationId)` run by the responder with `authUser._id = authUserId` and
private key `myPrivateKey`: validate the Init, generate an ephemeral pair,
build and send the Response, and on server success record the session key;
any failure is caught and returns `false`.  The generated ephemeral private
scalar, response nonce, device info, wall clock and the server's answer are
explicit parameters. -/
def handleKeyExchangeMessage (message : KeyExchangeJs.InitMessage) (senderId : String)
    (senderPublicKey : Nat) (conversationId authUserId : String)
    (myPrivateKey ephPriv : Nat) (respNonce deviceInfo : String) (now : Int)
    (serverOk : Bool) (st : HandlerState) : Bool × HandlerState :=
  match KeyExchangeJs.validateKeyExchangeInit message senderPublicKey now st.seenNonces with
  | (.invalid _, nonces) => (false, { st with seenNonces := nonces })
  | (.valid theirEcdhPublicKey _ msgConversationId _, nonces) =>
    let convId := if conversationId ≠ "" then conversationId else msgConversationId
    let r := KeyExchangeJs.createKeyExchangeResponse (KeyExchangeJs.ecdhPublicOf ephPriv)
      theirEcdhPublicKey ephPriv senderId myPrivateKey authUserId convId now respNonce
      deviceInfo st.sessionStore
    if serverOk then
      (true, { sessionKeys := putA convId r.1.sessionKey st.sessionKeys,
               seenNonces := nonces, sessionStore := r.2 })
    else
      (false, { st with seenNonces := nonces, sessionStore := r.2 })

end UseKeyExchangeJs

namespace KeyExchangeJs

/-- The confirmation-tag formula as the specification words it, for comparison
with the source's `confirmationData`: the hash input built from
`"KEY_CONFIRMED"`, the lexicographically sorted pair of the two participant
ids, and the timestamp (keeping the source's underscore separators, so that
only the ordering of the ids is at issue). -/
def specSortedConfirmationData (idA idB : String) (timestamp : Int) : String :=
  "KEY_CONFIRMED_" ++ (sortPair idA idB).1 ++ "_" ++ (sortPair idA idB).2 ++ "_" ++
    toString timestamp

end KeyExchangeJs

/-! ## Helper lemmas -/

lemma lookupA_putA_self [DecidableEq κ] (k : κ) (v : α) (l : List (κ × α)) :
    lookupA k (putA k v l) = some v := by
  induction l with
  | nil => simp [putA, lookupA]
  | cons hd tl ih =>
    by_cases h : hd.1 = k
    · simp [putA, lookupA, h]
    · simpa [putA, lookupA, h] using ih

lemma putA_self [DecidableEq κ] {k : κ} {v : α} :
    ∀ {l : List (κ × α)}, lookupA k l = some v → putA k v l = l := by
  intro l
  induction l with
  | nil => simp [lookupA]
  | cons hd tl ih =>
    intro h
    by_cases hk : hd.1 = k
    · simp only [lookupA, hk, if_pos] at h
      cases hd with
      | mk k' v' =>
        simp only at hk
        simp_all [putA]
    · simp only [lookupA, hk, if_neg, not_false_iff] at h
      cases hd with
      | mk k' v' =>
        simp only at hk
        simp [putA, hk, ih h]

lemma charListLtB_asymm :
    ∀ {x y : List Char}, KeyExchangeJs.charListLtB x y = true →
      KeyExchangeJs.charListLtB y x = false
  | _, [], h => by simp [KeyExchangeJs.charListLtB] at h
  | [], _ :: _, _ => by simp [KeyExchangeJs.charListLtB]
  | x :: xs, y :: ys, h => by
    by_cases hxy : x.toNat < y.toNat
    · simp [KeyExchangeJs.charListLtB, hxy, Nat.lt_asymm hxy, Nat.ne_of_lt hxy]
    · by_cases hyx : y.toNat < x.toNat
      · simp [KeyExchangeJs.charListLtB, hxy, hyx] at h
      · have hx := charListLtB_asymm (x := xs) (y := ys)
        simp_all [KeyExchangeJs.charListLtB, hxy, hyx]

lemma charListLtB_antisymm :
    ∀ {x y : List Char}, KeyExchangeJs.charListLtB x y = false →
      KeyExchangeJs.charListLtB y x = false → x = y
  | [], [], _, _ => rfl
  | _ :: _, [], _, h => by simp [KeyExchangeJs.charListLtB] at h
  | [], _ :: _, h, _ => by simp [KeyExchangeJs.charListLtB] at h
  | x :: xs, y :: ys, h, h' => by
    by_cases hxy : x.toNat < y.toNat
    · simp [KeyExchangeJs.charListLtB, hxy] at h
    · by_cases hyx : y.toNat < x.toNat
      · simp [KeyExchangeJs.charListLtB, hyx] at h'
      · have hchar : x = y := Char.ext (UInt32.ext (Nat.le_antisymm
          (Nat.le_of_not_lt hyx) (Nat.le_of_not_lt hxy)))
        have htail : xs = ys := by
          refine charListLtB_antisymm ?_ ?_
          · simpa [KeyExchangeJs.charListLtB, hxy, hyx] using h
          · simpa [KeyExchangeJs.charListLtB, hxy, hyx] using h'
        rw [hchar, htail]

lemma strLtB_antisymm {a b : String} (h : KeyExchangeJs.strLtB a b = false)
    (h' : KeyExchangeJs.strLtB b a = false) : a = b := by
  have hdata : a.data = b.data := charListLtB_antisymm h h'
  cases a
  cases b
  exact congrArg String.mk hdata

lemma sortPair_comm (a b : String) : KeyExchangeJs.sortPair a b = KeyExchangeJs.sortPair b a := by
  unfold KeyExchangeJs.sortPair
  cases hba : KeyExchangeJs.strLtB b a
  · cases hab : KeyExchangeJs.strLtB a b
    · rw [strLtB_antisymm hab hba]
    · simp
  · have := charListLtB_asymm (x := b.data) (y := a.data) hba
    simp [KeyExchangeJs.strLtB] at this ⊢
    simp [this]

lemma dh_comm (a b : Nat) :
    KeyExchangeJs.deriveSharedSecret a (KeyExchangeJs.ecdhPublicOf b) =
      KeyExchangeJs.deriveSharedSecret b (KeyExchangeJs.ecdhPublicOf a) := by
  unfold KeyExchangeJs.deriveSharedSecret KeyExchangeJs.ecdhPublicOf
  rw [← Nat.pow_mod, ← Nat.pow_mod, ← pow_mul, ← pow_mul, Nat.mul_comm]

/-! ## Claim theorems: replay guard -/

namespace ReplayProtectionJs

/-- C3: a replay-guard call whose non-empty nonce is already recorded for the
context is rejected with the duplicate-nonce reason, whatever the timestamp
and sequence arguments are, and the guard state is left untouched: the nonce
check runs first and short-circuits before the timestamp and sequence
checks. -/
theorem duplicate_nonce_rejected_first (conversationId nonce : String)
    (timestamp : Int) (sequenceNumber : Option Int)
    (messageId sequenceContextId : String) (now : Int) (st : ReplayState)
    (hn : nonce ≠ "")
    (hdup : nonce ∈ (lookupA conversationId st.seenNonces).getD []) :
    validateReplayProtection conversationId nonce timestamp sequenceNumber
      messageId sequenceContextId now st =
      (.ok ⟨false, some "Invalid or duplicate nonce"⟩, st) := by
  obtain ⟨ns, hns, hmem⟩ : ∃ ns, lookupA conversationId st.seenNonces = some ns ∧ nonce ∈ ns := by
    cases h : lookupA conversationId st.seenNonces with
    | none => rw [h] at hdup; simp at hdup
    | some ns => exact ⟨ns, rfl, by rw [h] at hdup; simpa using hdup⟩
  by_cases hc : conversationId = ""
  · simp [validateReplayProtection, validateNonce, hn, hc]
  · simp [validateReplayProtection, validateNonce, hn, hc, hns, hmem, putA_self hns]

/-- Witness for C3 at a concrete recorded nonce. -/
theorem duplicate_nonce_rejected_first_witness :
    ("n1" : String) ≠ "" ∧
    "n1" ∈ (lookupA "c1" (ReplayState.mk [("c1", ["n1"])] [] [] []).seenNonces).getD [] ∧
    validateReplayProtection "c1" "n1" 999999999 (some 3) "m" "" 0
      (ReplayState.mk [("c1", ["n1"])] [] [] []) =
      (.ok ⟨false, some "Invalid or duplicate nonce"⟩,
       ReplayState.mk [("c1", ["n1"])] [] [] []) :=
  ⟨by decide, by decide,
   duplicate_nonce_rejected_first "c1" "n1" 999999999 (some 3) "m" "" 0
     (ReplayState.mk [("c1", ["n1"])] [] [] []) (by decide) (by decide)⟩

end ReplayProtectionJs

namespace ReplayProtectionJs

/-- C6 (code bug): with the high-water mark of `"conv1"` at 200, a fresh
sequence number 50 lies below `200 - SEQUENCE_WINDOW`; instead of returning a
rejection, `validateSequenceNumber` reaches its
`logReplayAttack(conversationId, ...)` call, whose identifier
`conversationId` is undeclared (the parameter is `sequenceContextId`), and
throws a `ReferenceError`, which also propagates out of
`validateReplayProtection`. -/
theorem sequence_below_window_throws :
    validateSequenceNumber "conv1" (some 50) "m50"
      (ReplayState.mk [] [] [("conv1", 200)] [("conv1", [(200, "m200")])]) =
      (.error .referenceError,
       ReplayState.mk [] [] [("conv1", 200)] [("conv1", [(200, "m200")])]) ∧
    validateReplayProtection "conv1" "" 0 (some 50) "m50" "" 0
      (ReplayState.mk [] [] [("conv1", 200)] [("conv1", [(200, "m200")])]) =
      (.error .referenceError,
       ReplayState.mk [] [] [("conv1", 200)] [("conv1", [(200, "m200")])]) := by
  constructor
  · rfl
  · rfl

/-- C7: a message whose non-zero timestamp lies more than the five-minute
tolerance from `now` — in either direction — is rejected with the timestamp
reason even when it carries a fresh, never-seen nonce; the fresh nonce has
been recorded by the preceding nonce check. -/
theorem timestamp_outside_tolerance_rejected (conversationId nonce : String)
    (timestamp now : Int) (sequenceNumber : Option Int)
    (messageId sequenceContextId : String) (st : ReplayState)
    (hc : conversationId ≠ "") (ht : timestamp ≠ 0) (hn : nonce ≠ "")
    (hfresh : nonce ∉ (lookupA conversationId st.seenNonces).getD [])
    (hout : ((now - timestamp).natAbs : Int) > TIMESTAMP_TOLERANCE) :
    validateReplayProtection conversationId nonce timestamp sequenceNumber
      messageId sequenceContextId now st =
      (.ok ⟨false, some "Invalid timestamp (outside tolerance window or future timestamp)"⟩,
       { st with seenNonces := (putA conversationId
           (nonce :: (lookupA conversationId st.seenNonces).getD []) st.seenNonces) }) := by
  have htol : TIMESTAMP_TOLERANCE = 300000 := rfl
  have hcase : timestamp > now + TIMESTAMP_TOLERANCE ∨ timestamp < now - TIMESTAMP_TOLERANCE := by
    rw [htol] at hout ⊢
    rcases Int.natAbs_eq (now - timestamp) with h | h <;> omega
  rcases hcase with h | h
  · simp [validateReplayProtection, validateNonce, validateTimestamp, hn, hc, ht, hfresh, h]
  · have h' : ¬ timestamp > now + TIMESTAMP_TOLERANCE := by rw [htol] at h ⊢; omega
    simp [validateReplayProtection, validateNonce, validateTimestamp, hn, hc, ht, hfresh, h, h']

/-- Witness for C7: one stale and one future timestamp, each with a fresh
nonce, at a concrete state. -/
theorem timestamp_outside_tolerance_rejected_witness :
    (("c1" : String) ≠ "" ∧ (1000 : Int) ≠ 0 ∧ ("n2" : String) ≠ "" ∧
      "n2" ∉ (lookupA "c1" (ReplayState.mk [("c1", ["n1"])] [] [] []).seenNonces).getD [] ∧
      (((2000000 : Int) - 1000).natAbs : Int) > TIMESTAMP_TOLERANCE ∧
      validateReplayProtection "c1" "n2" 1000 none "" "" 2000000
        (ReplayState.mk [("c1", ["n1"])] [] [] []) =
        (.ok ⟨false, some "Invalid timestamp (outside tolerance window or future timestamp)"⟩,
         { ReplayState.mk [("c1", ["n1"])] [] [] [] with seenNonces := (putA "c1"
             ("n2" :: (lookupA "c1" (ReplayState.mk [("c1", ["n1"])] [] [] []).seenNonces).getD [])
             (ReplayState.mk [("c1", ["n1"])] [] [] []).seenNonces) })) ∧
    ((((0 : Int) - 301000).natAbs : Int) > TIMESTAMP_TOLERANCE ∧
      validateReplayProtection "c1" "n2" 301000 none "" "" 0
        (ReplayState.mk [("c1", ["n1"])] [] [] []) =
        (.ok ⟨false, some "Invalid timestamp (outside tolerance window or future timestamp)"⟩,
         { ReplayState.mk [("c1", ["n1"])] [] [] [] with seenNonces := (putA "c1"
             ("n2" :: (lookupA "c1" (ReplayState.mk [("c1", ["n1"])] [] [] []).seenNonces).getD [])
             (ReplayState.mk [("c1", ["n1"])] [] [] []).seenNonces) })) :=
  ⟨⟨by decide, by decide, by decide, by decide, by decide,
    timestamp_outside_tolerance_rejected "c1" "n2" 1000 2000000 none "" ""
      (ReplayState.mk [("c1", ["n1"])] [] [] []) (by decide) (by decide) (by decide)
      (by decide) (by decide)⟩,
   ⟨by decide,
    timestamp_outside_tolerance_rejected "c1" "n2" 301000 0 none "" ""
      (ReplayState.mk [("c1", ["n1"])] [] [] []) (by decide) (by decide) (by decide)
      (by decide) (by decide)⟩⟩

end ReplayProtectionJs

namespace ReplayProtectionJs

/-- C9: with an empty nonce, a zero timestamp and no sequence number,
`validateReplayProtection` skips all three checks, returns `{valid: true}`
and records nothing; consequently the `initiateKeyExchange` endpoint accepts
an init message that omits its nonce and timestamp (the controller
substitutes `Date.now()` for the missing timestamp, which passes the
tolerance check) and stores it. -/
theorem falsy_inputs_skip_all_checks (conversationId messageId sequenceContextId : String)
    (now : Int) (st : ReplayState) (message : ControllerMessage) (authUserId : String)
    (keyExchangeStore : List (String × (ControllerMessage × Int)))
    (htype : message.type = "KEY_EXCHANGE_INIT") (hsender : message.senderId = authUserId)
    (hnonce : message.nonce = "") (hts : message.timestamp = 0) :
    validateReplayProtection conversationId "" 0 none messageId sequenceContextId now st =
      (.ok ⟨true, none⟩, st) ∧
    (initiateKeyExchange message authUserId now st keyExchangeStore).1 =
      .okStored (if message.conversationId ≠ "" then message.conversationId
                 else message.senderId ++ "_" ++ message.receiverId) ∧
    (initiateKeyExchange message authUserId now st keyExchangeStore).2.2 =
      putA (if message.conversationId ≠ "" then message.conversationId
            else message.senderId ++ "_" ++ message.receiverId)
        (message, now) keyExchangeStore := by
  refine ⟨by simp [validateReplayProtection], ?_⟩
  have hcat : authUserId ++ "_" ++ message.receiverId ≠ "" := by
    intro hq
    have hlen := congrArg String.length hq
    rw [String.length_append, String.length_append] at hlen
    have hu : ("_" : String).length = 1 := rfl
    have hz : ("" : String).length = 0 := rfl
    rw [hu, hz] at hlen
    omega
  have h1 : ¬ now > now + TIMESTAMP_TOLERANCE := by
    have ht300 : TIMESTAMP_TOLERANCE = 300000 := rfl
    omega
  have h2 : ¬ now < now - TIMESTAMP_TOLERANCE := by
    have ht300 : TIMESTAMP_TOLERANCE = 300000 := rfl
    omega
  by_cases hcid : message.conversationId = "" <;> by_cases hn : now = 0 <;>
    constructor <;>
    simp [initiateKeyExchange, htype, hsender, hnonce, hts, hcid, hn, hcat,
      validateReplayProtection, validateTimestamp, h1, h2]

end ReplayProtectionJs

namespace ReplayProtectionJs

/-- Witness for C9 at a concrete init message omitting nonce and timestamp. -/
theorem falsy_inputs_skip_all_checks_witness :
    (ControllerMessage.mk "KEY_EXCHANGE_INIT" "alice" "bob" "c1" "" 0).type =
      "KEY_EXCHANGE_INIT" ∧
    (ControllerMessage.mk "KEY_EXCHANGE_INIT" "alice" "bob" "c1" "" 0).senderId = "alice" ∧
    (ControllerMessage.mk "KEY_EXCHANGE_INIT" "alice" "bob" "c1" "" 0).nonce = "" ∧
    (ControllerMessage.mk "KEY_EXCHANGE_INIT" "alice" "bob" "c1" "" 0).timestamp = 0 ∧
    (validateReplayProtection "c1" "" 0 none "" "" 5000 ReplayState.empty =
      (.ok ⟨true, none⟩, ReplayState.empty) ∧
    (initiateKeyExchange (ControllerMessage.mk "KEY_EXCHANGE_INIT" "alice" "bob" "c1" "" 0)
        "alice" 5000 ReplayState.empty []).1 =
      .okStored (if (ControllerMessage.mk "KEY_EXCHANGE_INIT" "alice" "bob" "c1" "" 0).conversationId ≠ ""
                 then (ControllerMessage.mk "KEY_EXCHANGE_INIT" "alice" "bob" "c1" "" 0).conversationId
                 else (ControllerMessage.mk "KEY_EXCHANGE_INIT" "alice" "bob" "c1" "" 0).senderId ++ "_" ++
                   (ControllerMessage.mk "KEY_EXCHANGE_INIT" "alice" "bob" "c1" "" 0).receiverId) ∧
    (initiateKeyExchange (ControllerMessage.mk "KEY_EXCHANGE_INIT" "alice" "bob" "c1" "" 0)
        "alice" 5000 ReplayState.empty []).2.2 =
      putA (if (ControllerMessage.mk "KEY_EXCHANGE_INIT" "alice" "bob" "c1" "" 0).conversationId ≠ ""
            then (ControllerMessage.mk "KEY_EXCHANGE_INIT" "alice" "bob" "c1" "" 0).conversationId
            else (ControllerMessage.mk "KEY_EXCHANGE_INIT" "alice" "bob" "c1" "" 0).senderId ++ "_" ++
              (ControllerMessage.mk "KEY_EXCHANGE_INIT" "alice" "bob" "c1" "" 0).receiverId)
        ((ControllerMessage.mk "KEY_EXCHANGE_INIT" "alice" "bob" "c1" "" 0), 5000) []) :=
  ⟨by decide, by decide, by decide, by decide,
   falsy_inputs_skip_all_checks "c1" "" "" 5000 ReplayState.empty
     (ControllerMessage.mk "KEY_EXCHANGE_INIT" "alice" "bob" "c1" "" 0) "alice" []
     (by decide) (by decide) (by decide) (by decide)⟩

end ReplayProtectionJs

/-! ## Claim theorems: session store and handshake engine -/

namespace KeyExchangeJs

/-- C5: after `storeSessionKey` records a key with a positive creation
timestamp, `retrieveSessionKey` resolves `null` and deletes the entry once
`now` is strictly past `createdAt + SESSION_KEY_EXPIRY`, and resolves the
stored key at any instant up to and including that bound. -/
theorem session_key_ttl (conversationId : String) (sessionKey : Bytes)
    (timestamp nowStore now : Int) (store : SessionStore) (hpos : 0 < timestamp) :
    (now > timestamp + SESSION_KEY_EXPIRY →
      retrieveSessionKey conversationId now
          (storeSessionKey conversationId sessionKey timestamp nowStore store) =
        (none, removeA ("sessionKey-" ++ conversationId)
          (storeSessionKey conversationId sessionKey timestamp nowStore store))) ∧
    (now ≤ timestamp + SESSION_KEY_EXPIRY →
      retrieveSessionKey conversationId now
          (storeSessionKey conversationId sessionKey timestamp nowStore store) =
        (some sessionKey,
         storeSessionKey conversationId sessionKey timestamp nowStore store)) := by
  have hts : timestamp ≠ 0 := by omega
  have hlk : lookupA ("sessionKey-" ++ conversationId)
      (storeSessionKey conversationId sessionKey timestamp nowStore store) =
      some ⟨sessionKey, timestamp, timestamp + SESSION_KEY_EXPIRY⟩ := by
    simp [storeSessionKey, hts, lookupA_putA_self]
  have hexp : timestamp + SESSION_KEY_EXPIRY ≠ 0 := by
    have he : SESSION_KEY_EXPIRY = 604800000 := rfl
    omega
  constructor
  · intro h
    simp [retrieveSessionKey, hlk, hexp, h]
  · intro h
    have hno : ¬ now > timestamp + SESSION_KEY_EXPIRY := by omega
    simp [retrieveSessionKey, hlk, hno]

/-- Witness for C5 at a concrete stored key. -/
theorem session_key_ttl_witness :
    (0 : Int) < 1000 ∧
    ((700000000 > (1000 : Int) + SESSION_KEY_EXPIRY →
      retrieveSessionKey "c1" 700000000 (storeSessionKey "c1" [1, 2, 3] 1000 1000 []) =
        (none, removeA ("sessionKey-" ++ "c1") (storeSessionKey "c1" [1, 2, 3] 1000 1000 []))) ∧
     (700000000 ≤ (1000 : Int) + SESSION_KEY_EXPIRY →
      retrieveSessionKey "c1" 700000000 (storeSessionKey "c1" [1, 2, 3] 1000 1000 []) =
        (some [1, 2, 3], storeSessionKey "c1" [1, 2, 3] 1000 1000 []))) :=
  ⟨by decide, session_key_ttl "c1" [1, 2, 3] 1000 1000 700000000 [] (by decide)⟩

/-- C8: when the received confirmation hash differs from the tag the
initiator recomputes, `completeKeyExchange` throws the confirmation-mismatch
error and leaves the session-key store exactly as it was (the response nonce
has been recorded by the earlier nonce check). -/
theorem confirmation_mismatch_aborts (responseMessage : ResponseMessage)
    (myECDHPrivateKey theirPublicKey : Nat) (myId theirId conversationId : String)
    (now : Int) (seenNonces : List String) (store : SessionStore)
    (hsig : responseMessage.signature = some ⟨theirPublicKey, responseMessage.fields⟩)
    (hts : ((now - responseMessage.fields.timestamp).natAbs : Int) ≤ TIMESTAMP_TOLERANCE)
    (hnonce : responseMessage.fields.nonce ∉ seenNonces)
    (hmismatch : responseMessage.fields.confirmationHash ≠
      confirmationHashBase64 theirId myId responseMessage.fields.timestamp) :
    completeKeyExchange responseMessage myECDHPrivateKey theirPublicKey myId theirId
      conversationId now seenNonces store =
      (.error (completeErr "Confirmation hash mismatch"),
       responseMessage.fields.nonce :: seenNonces, store) := by
  have habs : |now - responseMessage.fields.timestamp| ≤ TIMESTAMP_TOLERANCE := by
    rw [Int.abs_eq_natAbs]
    exact hts
  simp [completeKeyExchange, hsig, verifySignature, habs, hnonce, hmismatch]

end KeyExchangeJs

namespace KeyExchangeJs

/-- Witness for C8 at a concrete response carrying the wrong confirmation
hash. -/
theorem confirmation_mismatch_aborts_witness :
    (ResponseMessage.mk
        (ResponseFields.mk "KEY_EXCHANGE_RESPONSE" "bob" "alice" "c1" 9 1000 "n1" "x" "dev" "1.0.0")
        (some ⟨2, ResponseFields.mk "KEY_EXCHANGE_RESPONSE" "bob" "alice" "c1" 9 1000 "n1" "x" "dev" "1.0.0"⟩)).signature =
      some ⟨2, (ResponseMessage.mk
        (ResponseFields.mk "KEY_EXCHANGE_RESPONSE" "bob" "alice" "c1" 9 1000 "n1" "x" "dev" "1.0.0")
        (some ⟨2, ResponseFields.mk "KEY_EXCHANGE_RESPONSE" "bob" "alice" "c1" 9 1000 "n1" "x" "dev" "1.0.0"⟩)).fields⟩ ∧
    ((((1000 : Int) - 1000).natAbs : Int) ≤ TIMESTAMP_TOLERANCE) ∧
    ("n1" : String) ∉ ([] : List String) ∧
    ("x" : String) ≠ confirmationHashBase64 "bob" "alice" 1000 ∧
    completeKeyExchange
      (ResponseMessage.mk
        (ResponseFields.mk "KEY_EXCHANGE_RESPONSE" "bob" "alice" "c1" 9 1000 "n1" "x" "dev" "1.0.0")
        (some ⟨2, ResponseFields.mk "KEY_EXCHANGE_RESPONSE" "bob" "alice" "c1" 9 1000 "n1" "x" "dev" "1.0.0"⟩))
      3 2 "alice" "bob" "c1" 1000 [] [] =
      (.error (completeErr "Confirmation hash mismatch"), ["n1"], []) :=
  ⟨by decide, by decide, by decide, by decide,
   confirmation_mismatch_aborts
     (ResponseMessage.mk
       (ResponseFields.mk "KEY_EXCHANGE_RESPONSE" "bob" "alice" "c1" 9 1000 "n1" "x" "dev" "1.0.0")
       (some ⟨2, ResponseFields.mk "KEY_EXCHANGE_RESPONSE" "bob" "alice" "c1" 9 1000 "n1" "x" "dev" "1.0.0"⟩))
     3 2 "alice" "bob" "c1" 1000 [] [] (by decide) (by decide) (by decide) (by decide)⟩

end KeyExchangeJs

namespace KeyExchangeJs

/-- C2: an init envelope whose ephemeral public key (or any other signed
field) differs from the content covered by its signature fails signature
verification: `validateKeyExchangeInit` returns the invalid result with the
signature error before any nonce is recorded, and the responder's
`handleKeyExchangeMessage` returns `false` with all of its state — session
keys, nonce set and session store — unchanged. -/
theorem tampered_init_rejected (message : InitMessage) (senderPublicKey : Nat)
    (now : Int) (sig : RSASig InitFields)
    (hsig : message.signature = some sig) (htamper : sig.payload ≠ message.fields)
    (senderId conversationId authUserId : String) (myPrivateKey ephPriv : Nat)
    (respNonce deviceInfo : String) (serverOk : Bool) (st : UseKeyExchangeJs.HandlerState) :
    validateKeyExchangeInit message senderPublicKey now st.seenNonces =
      (.invalid "Invalid signature", st.seenNonces) ∧
    UseKeyExchangeJs.handleKeyExchangeMessage message senderId senderPublicKey
      conversationId authUserId myPrivateKey ephPriv respNonce deviceInfo now serverOk st =
      (false, st) := by
  have hv : verifySignature senderPublicKey sig message.fields = false := by
    simp [verifySignature, htamper]
  have h1 : validateKeyExchangeInit message senderPublicKey now st.seenNonces =
      (.invalid "Invalid signature", st.seenNonces) := by
    simp [validateKeyExchangeInit, hsig, hv]
  exact ⟨h1, by simp [UseKeyExchangeJs.handleKeyExchangeMessage, h1]⟩

/-- Witness for C2: an honest signature over an Init whose ephemeral public
key an intermediary then replaced. -/
theorem tampered_init_rejected_witness :
    (InitMessage.mk
        (InitFields.mk "KEY_EXCHANGE_INIT" "alice" "bob" "c1" 6 1000 "n1" "dev" "1.0.0")
        (some ⟨1, InitFields.mk "KEY_EXCHANGE_INIT" "alice" "bob" "c1" 5 1000 "n1" "dev" "1.0.0"⟩)).signature =
      some ⟨1, InitFields.mk "KEY_EXCHANGE_INIT" "alice" "bob" "c1" 5 1000 "n1" "dev" "1.0.0"⟩ ∧
    (InitFields.mk "KEY_EXCHANGE_INIT" "alice" "bob" "c1" 5 1000 "n1" "dev" "1.0.0") ≠
      (InitMessage.mk
        (InitFields.mk "KEY_EXCHANGE_INIT" "alice" "bob" "c1" 6 1000 "n1" "dev" "1.0.0")
        (some ⟨1, InitFields.mk "KEY_EXCHANGE_INIT" "alice" "bob" "c1" 5 1000 "n1" "dev" "1.0.0"⟩)).fields ∧
    validateKeyExchangeInit
      (InitMessage.mk
        (InitFields.mk "KEY_EXCHANGE_INIT" "alice" "bob" "c1" 6 1000 "n1" "dev" "1.0.0")
        (some ⟨1, InitFields.mk "KEY_EXCHANGE_INIT" "alice" "bob" "c1" 5 1000 "n1" "dev" "1.0.0"⟩))
      1 1000 (UseKeyExchangeJs.HandlerState.mk [] [] []).seenNonces =
      (.invalid "Invalid signature", (UseKeyExchangeJs.HandlerState.mk [] [] []).seenNonces) ∧
    UseKeyExchangeJs.handleKeyExchangeMessage
      (InitMessage.mk
        (InitFields.mk "KEY_EXCHANGE_INIT" "alice" "bob" "c1" 6 1000 "n1" "dev" "1.0.0")
        (some ⟨1, InitFields.mk "KEY_EXCHANGE_INIT" "alice" "bob" "c1" 5 1000 "n1" "dev" "1.0.0"⟩))
      "alice" 1 "c1" "bob" 2 3 "n2" "dev" 1000 true
      (UseKeyExchangeJs.HandlerState.mk [] [] []) =
      (false, UseKeyExchangeJs.HandlerState.mk [] [] []) := by
  refine ⟨by decide, by decide, ?_⟩
  exact (tampered_init_rejected
    (InitMessage.mk
      (InitFields.mk "KEY_EXCHANGE_INIT" "alice" "bob" "c1" 6 1000 "n1" "dev" "1.0.0")
      (some ⟨1, InitFields.mk "KEY_EXCHANGE_INIT" "alice" "bob" "c1" 5 1000 "n1" "dev" "1.0.0"⟩))
    1 1000 ⟨1, InitFields.mk "KEY_EXCHANGE_INIT" "alice" "bob" "c1" 5 1000 "n1" "dev" "1.0.0"⟩
    rfl (by decide) "alice" "c1" "bob" 2 3 "n2" "dev" true
    (UseKeyExchangeJs.HandlerState.mk [] [] []))

/-- C4 counterexample: with initiator `"alice"` and responder `"bob"` the
confirmation tag the responder emits hashes
`"KEY_CONFIRMED_bob_alice_1000"` (fixed role order, responder first), which
differs from the hash of the lexicographically sorted formula
`"KEY_CONFIRMED_alice_bob_1000"` the claim states. -/
theorem confirmation_tag_not_sorted_counterexample :
    (createKeyExchangeResponse (ecdhPublicOf 5) (ecdhPublicOf 3) 5 "alice" 7 "bob" "c1"
        1000 "n1" "dev" []).1.response.fields.confirmationHash ≠
      base64Encode (sha256 (encodeStr (specSortedConfirmationData "alice" "bob" 1000))) := by
  decide

/-- C4 amended: the confirmation tag is the hash of `"KEY_CONFIRMED_"`
followed by the responder's id, then the initiator's id, then the response
timestamp — fixed role order (responder first), not the lexicographically
sorted pair — and it equals `confirmationHashBase64 receiverId senderId now`,
the very expression `completeKeyExchange` recomputes (with
`theirId = receiverId`, `myId = senderId`) as its expected tag, so both
sides use the same role-order formula. -/
theorem confirmation_tag_role_order
    (myECDHPublicKey theirECDHPublicKey myECDHPrivateKey : Nat) (senderId : String)
    (myPrivateKey : Nat) (receiverId conversationId : String) (now : Int)
    (nonce deviceInfo : String) (store : SessionStore) :
    (createKeyExchangeResponse myECDHPublicKey theirECDHPublicKey myECDHPrivateKey
        senderId myPrivateKey receiverId conversationId now nonce deviceInfo
        store).1.response.fields.confirmationHash =
      base64Encode (sha256 (encodeStr
        ("KEY_CONFIRMED_" ++ receiverId ++ "_" ++ senderId ++ "_" ++ toString now))) ∧
    (createKeyExchangeResponse myECDHPublicKey theirECDHPublicKey myECDHPrivateKey
        senderId myPrivateKey receiverId conversationId now nonce deviceInfo
        store).1.response.fields.confirmationHash =
      confirmationHashBase64 receiverId senderId now :=
  ⟨rfl, rfl⟩

end KeyExchangeJs

namespace KeyExchangeJs

/-- C10: the confirmation tag emitted by `createKeyExchangeResponse` depends
only on the two participant ids and the response timestamp — never on the
ECDH keys, the shared secret or the derived session key: two runs agreeing
on the ids and timestamp but deriving different session keys emit identical
tags, and each tag equals `confirmationHashBase64 receiverId senderId now`,
the expected tag `completeKeyExchange` recomputes, so the initiator's tag
comparison succeeds in both runs. -/
theorem confirmation_tag_independent_of_secret
    (myPub1 theirPub1 myPriv1 myPub2 theirPub2 myPriv2 keyId1 keyId2 : Nat)
    (senderId receiverId conversationId1 conversationId2 : String) (now : Int)
    (nonce1 nonce2 deviceInfo1 deviceInfo2 : String) (store1 store2 : SessionStore)
    (hdiff : (createKeyExchangeResponse myPub1 theirPub1 myPriv1 senderId keyId1
        receiverId conversationId1 now nonce1 deviceInfo1 store1).1.sessionKey ≠
      (createKeyExchangeResponse myPub2 theirPub2 myPriv2 senderId keyId2
        receiverId conversationId2 now nonce2 deviceInfo2 store2).1.sessionKey) :
    (createKeyExchangeResponse myPub1 theirPub1 myPriv1 senderId keyId1
        receiverId conversationId1 now nonce1 deviceInfo1 store1).1.response.fields.confirmationHash =
      (createKeyExchangeResponse myPub2 theirPub2 myPriv2 senderId keyId2
        receiverId conversationId2 now nonce2 deviceInfo2 store2).1.response.fields.confirmationHash ∧
    (createKeyExchangeResponse myPub1 theirPub1 myPriv1 senderId keyId1
        receiverId conversationId1 now nonce1 deviceInfo1 store1).1.response.fields.confirmationHash =
      confirmationHashBase64 receiverId senderId now :=
  ⟨rfl, rfl⟩

/-- Witness for C10: two runs over different ephemeral keys whose derived
session keys differ. -/
theorem confirmation_tag_independent_of_secret_witness :
    ((createKeyExchangeResponse 1 (ecdhPublicOf 3) 5 "alice" 7 "bob" "c1"
        1000 "n1" "d" []).1.sessionKey ≠
      (createKeyExchangeResponse 2 (ecdhPublicOf 11) 13 "alice" 8 "bob" "c2"
        1000 "n2" "e" []).1.sessionKey) ∧
    (createKeyExchangeResponse 1 (ecdhPublicOf 3) 5 "alice" 7 "bob" "c1"
        1000 "n1" "d" []).1.response.fields.confirmationHash =
      (createKeyExchangeResponse 2 (ecdhPublicOf 11) 13 "alice" 8 "bob" "c2"
        1000 "n2" "e" []).1.response.fields.confirmationHash ∧
    (createKeyExchangeResponse 1 (ecdhPublicOf 3) 5 "alice" 7 "bob" "c1"
        1000 "n1" "d" []).1.response.fields.confirmationHash =
      confirmationHashBase64 "bob" "alice" 1000 :=
  ⟨by decide,
   (confirmation_tag_independent_of_secret 1 (ecdhPublicOf 3) 5 2 (ecdhPublicOf 11) 13 7 8
     "alice" "bob" "c1" "c2" 1000 "n1" "n2" "d" "e" [] [] (by decide)).1,
   (confirmation_tag_independent_of_secret 1 (ecdhPublicOf 3) 5 2 (ecdhPublicOf 11) 13 7 8
     "alice" "bob" "c1" "c2" 1000 "n1" "n2" "d" "e" [] [] (by decide)).2⟩

/-- C1: an honestly-completed handshake yields bit-identical session keys on
both sides.  The responder answers the initiator's ephemeral public key
`ecdhPublicOf a` with its own `ecdhPublicOf b`, deriving the key from the
sorted id pair and its own timestamp; when the initiator consumes that
Response unmodified (within the timestamp tolerance and with a fresh nonce),
`completeKeyExchange` succeeds and returns exactly the responder's session
key: both sides sort the two participant ids, reuse the responder timestamp
carried in the Response, and apply `deriveSessionKeySHA256` to the same
Diffie-Hellman shared secret. -/
theorem handshake_session_keys_agree (a b : Nat)
    (initiatorId responderId conversationId : String) (responderKeyId : Nat)
    (tResp now : Int) (respNonce deviceInfo : String)
    (respStore initStore : SessionStore) (initNonces : List String)
    (hts : ((now - tResp).natAbs : Int) ≤ TIMESTAMP_TOLERANCE)
    (hfresh : respNonce ∉ initNonces) :
    (completeKeyExchange
        (createKeyExchangeResponse (ecdhPublicOf b) (ecdhPublicOf a) b initiatorId
          responderKeyId responderId conversationId tResp respNonce deviceInfo
          respStore).1.response
        a responderKeyId initiatorId responderId conversationId now initNonces
        initStore).1 =
      .ok (createKeyExchangeResponse (ecdhPublicOf b) (ecdhPublicOf a) b initiatorId
          responderKeyId responderId conversationId tResp respNonce deviceInfo
          respStore).1.sessionKey := by
  have habs : |now - tResp| ≤ TIMESTAMP_TOLERANCE := by
    rw [Int.abs_eq_natAbs]
    exact hts
  have hkey : deriveSessionKeySHA256
      (sharedSecretBytes (deriveSharedSecret a (ecdhPublicOf b)))
      (sortPair responderId initiatorId).1 (sortPair responderId initiatorId).2 tResp =
      deriveSessionKeySHA256
      (sharedSecretBytes (deriveSharedSecret b (ecdhPublicOf a)))
      (sortPair initiatorId responderId).1 (sortPair initiatorId responderId).2 tResp := by
    rw [dh_comm, sortPair_comm]
  have hlt : ¬ TIMESTAMP_TOLERANCE < |now - tResp| := not_lt.mpr habs
  simp [createKeyExchangeResponse, completeKeyExchange, verifySignature, habs, hlt, hfresh, hkey]

/-- Witness for C1 at a concrete honest handshake. -/
theorem handshake_session_keys_agree_witness :
    ((((1000 : Int) - 1000).natAbs : Int) ≤ TIMESTAMP_TOLERANCE) ∧
    ("n1" : String) ∉ ([] : List String) ∧
    (completeKeyExchange
        (createKeyExchangeResponse (ecdhPublicOf 5) (ecdhPublicOf 3) 5 "alice"
          7 "bob" "c1" 1000 "n1" "dev" []).1.response
        3 7 "alice" "bob" "c1" 1000 [] []).1 =
      .ok (createKeyExchangeResponse (ecdhPublicOf 5) (ecdhPublicOf 3) 5 "alice"
          7 "bob" "c1" 1000 "n1" "dev" []).1.sessionKey :=
  ⟨by decide, by decide,
   handshake_session_keys_agree 3 5 "alice" "bob" "c1" 7 1000 1000 "n1" "dev" [] [] []
     (by decide) (by decide)⟩

end KeyExchangeJs
